import Mathlib

/-!
Verification of the cascading-forward call-routing server (`src/server.js`).

The server is a stateless webhook-driven dial cascade: `/voice/start` dials
the first configured fallback number; `/voice/handle-result` inspects the
reported `DialCallStatus` and either hangs up (success), dials the next
number, or — when the list is exhausted — hangs up and fires a best-effort
webhook notification.

Embedding conventions:
* A TwiML response is a list of verbs.  The `action` callback URL
  `/voice/handle-result?attempt=i` of a `<Dial>` verb is represented by the
  integer `i` it encodes (field `actionAttempt`), since that integer is the
  only information the URL carries back into the handler.
* JavaScript array indexing `arr[i]` (which yields `undefined` out of
  range, including for negative `i`) is `jsIndex`, returning `Option`.
* `parseInt(x) || 0` from line 91 of `server.js` is `parsedAttempt`:
  `jsParseInt` models the JS `parseInt` builtin (leading whitespace, an
  optional sign, an optional `0x`/`0X` hex prefix, longest digit prefix,
  `NaN` as `none`), and `|| 0` maps `none` (NaN) to `0` (a parsed `0` is
  falsy but `0 || 0 = 0`, so `getD 0` is exact).
* The fire-and-forget `fetch` of the notifier is modelled by passing in the
  downstream response's `ok` flag; the thrown-and-caught error of a failed
  dispatch is recorded in the `NotifyOutcome`, never in the TwiML response.
-/

/-- A TwiML verb as emitted by the handlers in `server.js`.  `dial` carries
the attempt index encoded in its `action` callback URL, the `timeout`
attribute, and the dialled number (`none` when the JS value is
`undefined`, i.e. an out-of-range list access). -/
inductive TwiMLVerb where
  | dial (actionAttempt : Int) (timeout : Nat) (number : Option String)
  | hangup
  deriving DecidableEq, Repr

/-- The form-encoded webhook body fields `server.js` reads
(`CallSid`, `From`, `To`, `DialCallStatus`).  `DialCallStatus` is `none`
when the field is absent. -/
structure CallData where
  CallSid : String
  From : String
  To : String
  DialCallStatus : Option String
  deriving DecidableEq, Repr

/-- JavaScript array indexing `arr[i]`: `undefined` (`none`) for a negative
or too-large index. -/
def jsIndex (l : List String) (i : Int) : Option String :=
  if 0 ≤ i then l[i.toNat]? else none

/-- Decimal digit value of a character, `none` for a non-digit. -/
def digitVal (c : Char) : Option Nat :=
  if '0' ≤ c ∧ c ≤ '9' then some (c.toNat - '0'.toNat) else none

/-- Hexadecimal digit value of a character, `none` for a non-digit. -/
def hexDigitVal (c : Char) : Option Nat :=
  if '0' ≤ c ∧ c ≤ '9' then some (c.toNat - '0'.toNat)
  else if 'a' ≤ c ∧ c ≤ 'f' then some (c.toNat - 'a'.toNat + 10)
  else if 'A' ≤ c ∧ c ≤ 'F' then some (c.toNat - 'A'.toNat + 10)
  else none

/-- Longest-prefix digit accumulation used by `jsParseInt`: consume digits
(under digit-value function `dv`, radix `radix`) from the front, stopping at
the first non-digit; `none` when no digit at all was consumed. -/
def parseDigits (dv : Char → Option Nat) (radix : Nat) :
    List Char → Nat → Bool → Option Nat
  | [], acc, seen => if seen then some acc else none
  | c :: cs, acc, seen =>
    match dv c with
    | some d => parseDigits dv radix cs (acc * radix + d) true
    | none => if seen then some acc else none

/-- Whitespace characters skipped by the JS `parseInt` builtin (the common
ASCII ones suffice for query-parameter strings). -/
def isJsSpace (c : Char) : Bool :=
  c = ' ' ∨ c = '\t' ∨ c = '\n' ∨ c = '\r'

/-- The JS `parseInt(string)` builtin with radix undefined: skip leading
whitespace, read an optional sign, switch to radix 16 after a `0x`/`0X`
prefix, then take the longest digit prefix; `NaN` is `none`. -/
def jsParseInt (s : String) : Option Int :=
  let cs := s.data.dropWhile isJsSpace
  let signAndRest : Int × List Char :=
    match cs with
    | '-' :: rest => (-1, rest)
    | '+' :: rest => (1, rest)
    | _ => (1, cs)
  let sign := signAndRest.1
  let body := signAndRest.2
  let mag : Option Nat :=
    match body with
    | '0' :: 'x' :: rest => parseDigits hexDigitVal 16 rest 0 false
    | '0' :: 'X' :: rest => parseDigits hexDigitVal 16 rest 0 false
    | _ => parseDigits digitVal 10 body 0 false
  mag.map (fun n => sign * (n : Int))

/-- Line 91 of `server.js`: `const attempt = parseInt(req.query.attempt) || 0`.
An absent query parameter is `undefined`, so `parseInt` yields `NaN`; `|| 0`
turns `NaN` (and a parsed `0`, unchanged) into `0`. -/
def parsedAttempt (q : Option String) : Int :=
  (q.bind jsParseInt).getD 0

/-- The branch logic of `/voice/handle-result` (lines 100–135 of
`server.js`) after the attempt index has been parsed.  Returns the TwiML
verbs of the response together with the number of times
`notifyWebhookAllNumbersFailed` is invoked (0 or 1). -/
def advanceCascade (numbers : List String) (timeout : Nat)
    (attempt : Int) (dialStatus : Option String) : List TwiMLVerb × Nat :=
  if dialStatus = some "completed" then
    ([TwiMLVerb.hangup], 0)
  else
    let nextAttempt := attempt + 1
    if nextAttempt < (numbers.length : Int) then
      ([TwiMLVerb.dial nextAttempt timeout (jsIndex numbers nextAttempt)], 0)
    else
      ([TwiMLVerb.hangup], 1)

/-- The `/voice/handle-result` handler (lines 89–139 of `server.js`):
parse the `attempt` query parameter, then branch on `DialCallStatus`. -/
def handleResult (numbers : List String) (timeout : Nat)
    (q : Option String) (body : CallData) : List TwiMLVerb × Nat :=
  advanceCascade numbers timeout (parsedAttempt q) body.DialCallStatus

/-- The `/voice/start` handler (lines 69–84 of `server.js`): always emits a
single `<Dial>` of `FALLBACK_NUMBERS[0]` with callback attempt index 0 and
the configured timeout — there is no emptiness check on the list. -/
def voiceStart (numbers : List String) (timeout : Nat) : List TwiMLVerb :=
  [TwiMLVerb.dial 0 timeout (jsIndex numbers 0)]

/-- The `WEBHOOK_URL` / `WEBHOOK_API_KEY` environment configuration
(lines 24–25 of `server.js`): each is `none` when the variable is unset. -/
structure WebhookConfig where
  url : Option String
  apiKey : Option String
  deriving DecidableEq, Repr

/-- JS truthiness of an environment-variable value: `undefined` and the
empty string are falsy. -/
def jsTruthy (v : Option String) : Bool :=
  match v with
  | none => false
  | some s => s ≠ ""

/-- The JSON payload built at lines 36–45 of `server.js`.  `timestamp` is
`new Date().toISOString()`, passed in as the current time. -/
structure NotificationPayload where
  event : String
  timestamp : String
  callSid : String
  From : String
  To : String
  attemptedNumbers : List String
  totalAttempts : Nat
  dialStatus : Option String
  deriving DecidableEq, Repr

/-- The outbound HTTP POST a configured notifier issues: target URL, the
`WEBHOOK_API_KEY` header value, and the JSON payload. -/
structure NotifyRequest where
  url : String
  apiKey : String
  payload : NotificationPayload
  deriving DecidableEq, Repr

/-- Result of one invocation of `notifyWebhookAllNumbersFailed`:
`skipped` (webhook not configured, early return at lines 31–34),
`success` (request sent, `response.ok`), or `failure` (request sent, the
thrown `Webhook returned ...` error is caught by the `.catch` at line 129
and only logged). -/
inductive NotifyOutcome where
  | skipped
  | success (req : NotifyRequest)
  | failure (req : NotifyRequest) (loggedError : String)
  deriving DecidableEq, Repr

/-- The outbound request carried by a `NotifyOutcome`, `none` when the
notifier skipped the dispatch. -/
def NotifyOutcome.request? : NotifyOutcome → Option NotifyRequest
  | NotifyOutcome.skipped => none
  | NotifyOutcome.success req => some req
  | NotifyOutcome.failure req _ => some req

/-- `notifyWebhookAllNumbersFailed` (lines 30–63 of `server.js`).
`responseOk` is the downstream endpoint's `response.ok`; a transport error
or non-success status is `responseOk = false`, in which case the function
throws, and the caller's `.catch` turns the throw into a logged error. -/
def notifyWebhookAllNumbersFailed (numbers : List String)
    (wh : WebhookConfig) (timestamp : String) (callData : CallData)
    (responseOk : Bool) : NotifyOutcome :=
  if ¬ jsTruthy wh.url ∨ ¬ jsTruthy wh.apiKey then
    NotifyOutcome.skipped
  else
    let payload : NotificationPayload :=
      { event := "all_numbers_unavailable"
        timestamp := timestamp
        callSid := callData.CallSid
        From := callData.From
        To := callData.To
        attemptedNumbers := numbers
        totalAttempts := numbers.length
        dialStatus := callData.DialCallStatus }
    let req : NotifyRequest :=
      { url := wh.url.getD "", apiKey := wh.apiKey.getD "", payload := payload }
    if responseOk then NotifyOutcome.success req
    else NotifyOutcome.failure req "Webhook returned an error status"

/-- `/voice/handle-result` together with the fire-and-forget webhook side
effect: the TwiML response and the list of notifier invocations (empty or a
single outcome).  The notifier runs detached (`.catch` only logs), so the
TwiML component is computed exactly as in `handleResult`, independent of
`responseOk`. -/
def handleResultFull (numbers : List String) (timeout : Nat)
    (wh : WebhookConfig) (timestamp : String) (q : Option String)
    (body : CallData) (responseOk : Bool) :
    List TwiMLVerb × List NotifyOutcome :=
  let r := handleResult numbers timeout q body
  (r.1, List.replicate r.2
    (notifyWebhookAllNumbersFailed numbers wh timestamp body responseOk))

/-- The first `<Dial>` verb of a TwiML response, as the pair of its encoded
callback attempt index and target number. -/
def extractDial : List TwiMLVerb → Option (Int × Option String)
  | [] => none
  | TwiMLVerb.dial i _ t :: _ => some (i, t)
  | TwiMLVerb.hangup :: rest => extractDial rest

/-- One call's cascade, driven from an initial TwiML response: while the
current response contains a `<Dial>`, record its target; each outcome event
re-enters `/voice/handle-result` carrying the attempt index echoed from
that `<Dial>`'s callback URL and the reported `DialCallStatus` from
`outcomes`.  The trace ends when a response carries no `<Dial>` or the
outcome stream ends with a dial outstanding. -/
def cascadeGo (numbers : List String) (timeout : Nat) :
    List (Option String) → List TwiMLVerb → List (Option String)
  | outcomes, resp =>
    match extractDial resp with
    | none => []
    | some (i, t) =>
      match outcomes with
      | [] => [t]
      | o :: rest =>
        t :: cascadeGo numbers timeout rest
          (advanceCascade numbers timeout i o).1

/-- The sequence of dialled targets of a full call: start from the
`/voice/start` response and feed back each outcome in turn. -/
def cascadeDials (numbers : List String) (timeout : Nat)
    (outcomes : List (Option String)) : List (Option String) :=
  cascadeGo numbers timeout outcomes (voiceStart numbers timeout)

/-- Evaluation lemma shared by the exhaustion claims: on a non-`completed`
outcome whose parsed attempt index admits no further candidate,
`/voice/handle-result` responds with a bare `<Hangup>` and invokes the
notifier exactly once. -/
theorem handleResult_exhausted (numbers : List String) (timeout : Nat)
    (q : Option String) (body : CallData)
    (hs : body.DialCallStatus ≠ some "completed")
    (hN : (numbers.length : Int) ≤ parsedAttempt q + 1) :
    handleResult numbers timeout q body = ([TwiMLVerb.hangup], 1) := by
  simp only [handleResult, advanceCascade]
  rw [if_neg hs, if_neg (by omega : ¬ parsedAttempt q + 1 < (numbers.length : Int))]

/-- C1: for an outcome event whose dial outcome is not `completed` and whose
zero-based attempt index `i` satisfies `i + 1 < N` (`N` the candidate
count), `/voice/handle-result` emits exactly one `<Dial>` of
`candidate[i+1]`, with callback URL encoding attempt index `i + 1` and the
same configured per-attempt timeout, and does not invoke the notifier. -/
theorem handle_result_progression (numbers : List String) (timeout : Nat)
    (q : Option String) (body : CallData) (i : Int)
    (hq : parsedAttempt q = i) (h0 : 0 ≤ i)
    (hs : body.DialCallStatus ≠ some "completed")
    (hi : i + 1 < (numbers.length : Int)) :
    handleResult numbers timeout q body
      = ([TwiMLVerb.dial (i + 1) timeout (jsIndex numbers (i + 1))], 0)
    ∧ jsIndex numbers (i + 1) = numbers[(i + 1).toNat]? := by
  have h1 : (0 : Int) ≤ i + 1 := by omega
  constructor
  · simp only [handleResult, advanceCascade, hq]
    rw [if_neg hs, if_pos hi]
  · unfold jsIndex
    rw [if_pos h1]

/-- Witness for C1: three candidates, attempt index 0, outcome
`no-answer` — the handler dials the second candidate with callback index 1. -/
theorem handle_result_progression_witness :
    handleResult ["A", "B", "C"] 20 (some "0")
        ⟨"CA1", "+15550001", "+15550002", some "no-answer"⟩
      = ([TwiMLVerb.dial 1 20 (some "B")], 0) := by
  have h := handle_result_progression ["A", "B", "C"] 20 (some "0")
    ⟨"CA1", "+15550001", "+15550002", some "no-answer"⟩ 0
    (by decide) (by decide) (by decide) (by decide)
  exact h.1.trans (by decide)

/-- C2: a `completed` (connected) dial outcome yields the terminal
`<Hangup>` response with no `<Dial>`, regardless of the attempt index
carried in the callback URL, and the exhaustion notifier is not invoked. -/
theorem handle_result_connected (numbers : List String) (timeout : Nat)
    (q : Option String) (body : CallData)
    (h : body.DialCallStatus = some "completed") :
    handleResult numbers timeout q body = ([TwiMLVerb.hangup], 0)
    ∧ ∀ (wh : WebhookConfig) (ts : String) (ok : Bool),
        (handleResultFull numbers timeout wh ts q body ok).2 = [] := by
  have h1 : handleResult numbers timeout q body = ([TwiMLVerb.hangup], 0) := by
    simp only [handleResult, advanceCascade]
    rw [if_pos h]
  exact ⟨h1, fun wh ts ok => by simp [handleResultFull, h1]⟩

/-- Witness for C2: outcome `completed` at attempt index 7 (any index)
produces the hangup response and no notifier invocation. -/
theorem handle_result_connected_witness :
    handleResult ["A", "B"] 20 (some "7")
        ⟨"CA1", "+15550001", "+15550002", some "completed"⟩
      = ([TwiMLVerb.hangup], 0) :=
  (handle_result_connected ["A", "B"] 20 (some "7")
    ⟨"CA1", "+15550001", "+15550002", some "completed"⟩ rfl).1

/-- C3: an outcome event at attempt index `N - 1` with a non-connected
outcome yields the fallback directive — the terminal `<Hangup>`, not a
`<Dial>` — and exactly one notification dispatch is attempted. -/
theorem handle_result_exhaustion_boundary (numbers : List String)
    (timeout : Nat) (q : Option String) (body : CallData)
    (hq : parsedAttempt q = (numbers.length : Int) - 1)
    (hs : body.DialCallStatus ≠ some "completed") :
    handleResult numbers timeout q body = ([TwiMLVerb.hangup], 1) :=
  handleResult_exhausted numbers timeout q body hs (by omega)

/-- Witness for C3: a single candidate whose first attempt fails — the very
next evaluation is already the exhaustion branch. -/
theorem handle_result_exhaustion_boundary_witness :
    handleResult ["A"] 20 (some "0")
        ⟨"CA1", "+15550001", "+15550002", some "no-answer"⟩
      = ([TwiMLVerb.hangup], 1) :=
  handle_result_exhaustion_boundary ["A"] 20 (some "0")
    ⟨"CA1", "+15550001", "+15550002", some "no-answer"⟩ (by decide) (by decide)

/-- C10: an absent `attempt` query parameter, and one that does not parse as
an integer, are both defaulted to attempt index 0 by
`parseInt(...) || 0` — a non-`completed` outcome then dials `candidate[1]`
when the list has at least two entries — while a parameter parsing to a
negative integer is kept unchanged (a negative value is truthy in JS). -/
theorem parsed_attempt_defaulting (numbers : List String) (timeout : Nat)
    (body : CallData) (s1 s2 : String) (n : Int)
    (h1 : jsParseInt s1 = none) (h2 : jsParseInt s2 = some n) (_h3 : n < 0)
    (h4 : 2 ≤ numbers.length)
    (h5 : body.DialCallStatus ≠ some "completed") :
    parsedAttempt none = 0
    ∧ parsedAttempt (some s1) = 0
    ∧ handleResult numbers timeout none body
        = ([TwiMLVerb.dial 1 timeout numbers[1]?], 0)
    ∧ parsedAttempt (some s2) = n := by
  refine ⟨rfl, ?_, ?_, ?_⟩
  · simp [parsedAttempt, h1]
  · have hq : parsedAttempt (none : Option String) = 0 := rfl
    simp only [handleResult, advanceCascade, hq]
    rw [if_neg h5, if_pos (by omega : (0 : Int) + 1 < (numbers.length : Int))]
    norm_num [jsIndex]
  · simp [parsedAttempt, h2]

/-- Witness for C10: `attempt=abc` and an absent parameter default to 0 and
dial the second of two candidates; `attempt=-5` parses to `-5` and is used
unchanged. -/
theorem parsed_attempt_defaulting_witness :
    parsedAttempt none = 0
    ∧ parsedAttempt (some "abc") = 0
    ∧ handleResult ["A", "B"] 20 none
        ⟨"CA1", "+15550001", "+15550002", some "no-answer"⟩
        = ([TwiMLVerb.dial 1 20 (["A", "B"][1]?)], 0)
    ∧ parsedAttempt (some "-5") = -5 :=
  parsed_attempt_defaulting ["A", "B"] 20
    ⟨"CA1", "+15550001", "+15550002", some "no-answer"⟩ "abc" "-5" (-5)
    (by decide) (by decide) (by decide) (by decide) (by decide)

/-- Unfolding lemma: a response whose only verb is `<Hangup>` ends the
cascade — no further target is recorded. -/
theorem cascadeGo_hangup (numbers : List String) (timeout : Nat)
    (outcomes : List (Option String)) :
    cascadeGo numbers timeout outcomes [TwiMLVerb.hangup] = [] := by
  cases outcomes <;> rfl

/-- Index-cast lemma: for an in-range natural index, the JS array access
returns the list element. -/
theorem jsIndex_natCast (l : List String) (k : Nat) (hk : k < l.length) :
    jsIndex l (k : Int) = some l[k] := by
  unfold jsIndex
  rw [if_pos (by omega : (0 : Int) ≤ (k : Int))]
  have h : ((k : Int)).toNat = k := by omega
  rw [h, List.getElem?_eq_getElem hk]

/-- Core ordering lemma: from a response dialling in-range candidate `k`,
feeding back each outcome with the echoed attempt index yields a dialled
sequence that is a prefix of `numbers.drop k` (each target wrapped in
`some`). -/
theorem cascadeGo_prefix (numbers : List String) (timeout : Nat) :
    ∀ (outcomes : List (Option String)) (k : Nat), k < numbers.length →
      cascadeGo numbers timeout outcomes
          [TwiMLVerb.dial (k : Int) timeout (jsIndex numbers (k : Int))]
        <+: (numbers.drop k).map some := by
  intro outcomes
  induction outcomes with
  | nil =>
    intro k hk
    have h1 : cascadeGo numbers timeout []
        [TwiMLVerb.dial (k : Int) timeout (jsIndex numbers (k : Int))]
      = [jsIndex numbers (k : Int)] := rfl
    rw [h1, jsIndex_natCast numbers k hk, List.drop_eq_getElem_cons hk,
      List.map_cons]
    exact ⟨(numbers.drop (k + 1)).map some, rfl⟩
  | cons o rest ih =>
    intro k hk
    have h1 : cascadeGo numbers timeout (o :: rest)
        [TwiMLVerb.dial (k : Int) timeout (jsIndex numbers (k : Int))]
      = jsIndex numbers (k : Int)
          :: cascadeGo numbers timeout rest
              (advanceCascade numbers timeout (k : Int) o).1 := rfl
    rw [h1, jsIndex_natCast numbers k hk, List.drop_eq_getElem_cons hk,
      List.map_cons]
    by_cases hc : o = some "completed"
    · have h2 : (advanceCascade numbers timeout (k : Int) o).1
          = [TwiMLVerb.hangup] := by
        simp [advanceCascade, hc]
      rw [h2, cascadeGo_hangup]
      exact ⟨(numbers.drop (k + 1)).map some, rfl⟩
    · by_cases hn : (k : Int) + 1 < (numbers.length : Int)
      · have h2 : (advanceCascade numbers timeout (k : Int) o).1
            = [TwiMLVerb.dial ((k + 1 : Nat) : Int) timeout
                (jsIndex numbers ((k + 1 : Nat) : Int))] := by
          simp only [advanceCascade]
          rw [if_neg hc, if_pos hn]
          push_cast
          rfl
        rw [h2]
        exact List.cons_prefix_cons.mpr ⟨rfl, ih (k + 1) (by omega)⟩
      · have h2 : (advanceCascade numbers timeout (k : Int) o).1
            = [TwiMLVerb.hangup] := by
          simp only [advanceCascade]
          rw [if_neg hc, if_neg hn]
        rw [h2, cascadeGo_hangup]
        exact ⟨(numbers.drop (k + 1)).map some, rfl⟩

/-- Counterexample to C6: with an empty candidate list, the cascade's first
response already dials an `undefined` target, so the dialled sequence
`[none]` is not a prefix of the (empty) candidate list. -/
theorem cascade_prefix_counterexample :
    cascadeDials [] 20 [] = [(none : Option String)]
    ∧ ¬ (cascadeDials [] 20 [] <+: (([] : List String).map some)) := by
  refine ⟨rfl, fun h => ?_⟩
  have h2 : cascadeDials [] 20 [] = [] := List.eq_nil_of_prefix_nil h
  exact absurd (h2.symm.trans rfl) (by decide)

/-- Amended C6: provided the candidate list is nonempty, and assuming each
outcome event carries the attempt index echoed from the previously issued
`<Dial>`'s callback URL, the sequence of dialled targets over a full call
is exactly a prefix of the candidate list in original order — no repeats,
no skips, no reordering.  (With an empty list the initial response dials an
`undefined` target, see the counterexample.) -/
theorem cascade_prefix_amended (numbers : List String) (timeout : Nat)
    (outcomes : List (Option String)) (h : numbers ≠ []) :
    cascadeDials numbers timeout outcomes <+: numbers.map some := by
  have hk : 0 < numbers.length := List.length_pos.mpr h
  have h0 := cascadeGo_prefix numbers timeout outcomes 0 hk
  simpa [cascadeDials, voiceStart] using h0

/-- Witness for amended C6: three candidates and two failed outcomes give
the dialled sequence `[some A, some B, some C]`, a prefix of the list. -/
theorem cascade_prefix_amended_witness :
    cascadeDials ["A", "B", "C"] 20 [some "no-answer", some "busy"]
      <+: (["A", "B", "C"].map some) :=
  cascade_prefix_amended ["A", "B", "C"] 20 [some "no-answer", some "busy"]
    (by decide)

/-- Counterexample to C4: with an empty candidate list, `/voice/start` does
not degrade to the fallback directive — it still emits a `<Dial>` (with an
`undefined` target, since `FALLBACK_NUMBERS[0]` is `undefined`), because
lines 69–84 of `server.js` contain no emptiness check. -/
theorem voice_start_empty_counterexample :
    voiceStart [] 20 = [TwiMLVerb.dial 0 20 none]
    ∧ voiceStart [] 20 ≠ [TwiMLVerb.hangup] := by decide

/-- Amended C4: with an empty candidate list, `/voice/start` emits a
`<Dial>` with callback attempt index 0, the configured timeout, and no
target number (`undefined`); the fallback directive is not produced and no
notification is attempted at startup. -/
theorem voice_start_empty_amended (timeout : Nat) :
    voiceStart [] timeout = [TwiMLVerb.dial 0 timeout none] := rfl

/-- Counterexample to C5: an outcome event carrying attempt index `-2`
(whose next dial index `-1` is out of range) still makes
`/voice/handle-result` emit a `<Dial>`, encoding the out-of-range index
`-1` with an `undefined` target — the handler checks only the upper bound
`nextAttempt < FALLBACK_NUMBERS.length`. -/
theorem dial_in_range_counterexample :
    (handleResult ["A"] 20 (some "-2")
        ⟨"CA1", "+15550001", "+15550002", some "no-answer"⟩).1
      = [TwiMLVerb.dial (-1) 20 none]
    ∧ ¬ (0 ≤ (-1 : Int)) := by decide

/-- Amended C5: every `<Dial>` emitted by `/voice/handle-result` satisfies
the upper bound `index < N`, and when the incoming parsed attempt index is
non-negative (as it is for every callback URL this server itself issues)
the full range invariant `0 ≤ index < N` holds; the lower bound is not
checked for negative incoming indices, and `/voice/start` always encodes
index 0 even on an empty list. -/
theorem dial_in_range_amended (numbers : List String) (timeout : Nat)
    (q : Option String) (body : CallData) (i : Int) (t : Nat)
    (target : Option String)
    (h : TwiMLVerb.dial i t target ∈ (handleResult numbers timeout q body).1) :
    i < (numbers.length : Int)
    ∧ (0 ≤ parsedAttempt q → 0 ≤ i ∧ i < (numbers.length : Int)) := by
  simp only [handleResult, advanceCascade] at h
  by_cases hc : body.DialCallStatus = some "completed"
  · rw [if_pos hc] at h
    simp at h
  · rw [if_neg hc] at h
    by_cases hn : parsedAttempt q + 1 < (numbers.length : Int)
    · rw [if_pos hn] at h
      simp only [List.mem_singleton, TwiMLVerb.dial.injEq] at h
      obtain ⟨hi, -, -⟩ := h
      exact ⟨by omega, fun h0 => by omega⟩
    · rw [if_neg hn] at h
      simp at h

/-- Witness for amended C5: the dial emitted for attempt 0 of two
candidates encodes index 1, inside the range `[0, 2)`. -/
theorem dial_in_range_amended_witness :
    (1 : Int) < ((["A", "B"] : List String).length : Int)
    ∧ (0 ≤ parsedAttempt (some "0") →
        0 ≤ (1 : Int) ∧ (1 : Int) < ((["A", "B"] : List String).length : Int)) :=
  dial_in_range_amended ["A", "B"] 20 (some "0")
    ⟨"CA1", "+15550001", "+15550002", some "no-answer"⟩ 1 20 (some "B")
    (by decide)

/-- C7: for an exhaustion event, the TwiML response returned to the
platform is the fallback `<Hangup>` whether the webhook dispatch succeeds
(`ok1`) or fails (`ok2`), and the two responses are identical — the
dispatch runs fire-and-forget and its failure is only caught and logged. -/
theorem notifier_isolation (numbers : List String) (timeout : Nat)
    (wh : WebhookConfig) (ts : String) (q : Option String) (body : CallData)
    (ok1 ok2 : Bool)
    (hs : body.DialCallStatus ≠ some "completed")
    (hN : (numbers.length : Int) ≤ parsedAttempt q + 1) :
    (handleResultFull numbers timeout wh ts q body ok1).1 = [TwiMLVerb.hangup]
    ∧ (handleResultFull numbers timeout wh ts q body ok2).1 = [TwiMLVerb.hangup]
    ∧ (handleResultFull numbers timeout wh ts q body ok1).1
        = (handleResultFull numbers timeout wh ts q body ok2).1 := by
  have h := handleResult_exhausted numbers timeout q body hs hN
  refine ⟨?_, ?_, ?_⟩ <;> simp [handleResultFull, h]

/-- Witness for C7: one candidate, failed attempt 0, with a configured
webhook — the response is the hangup for both a succeeding and a failing
dispatch. -/
theorem notifier_isolation_witness :
    (handleResultFull ["A"] 20 ⟨some "http://wh", some "k"⟩ "2026-01-01"
        (some "0") ⟨"CA1", "+15550001", "+15550002", some "busy"⟩ true).1
      = [TwiMLVerb.hangup]
    ∧ (handleResultFull ["A"] 20 ⟨some "http://wh", some "k"⟩ "2026-01-01"
        (some "0") ⟨"CA1", "+15550001", "+15550002", some "busy"⟩ false).1
      = [TwiMLVerb.hangup]
    ∧ (handleResultFull ["A"] 20 ⟨some "http://wh", some "k"⟩ "2026-01-01"
        (some "0") ⟨"CA1", "+15550001", "+15550002", some "busy"⟩ true).1
      = (handleResultFull ["A"] 20 ⟨some "http://wh", some "k"⟩ "2026-01-01"
        (some "0") ⟨"CA1", "+15550001", "+15550002", some "busy"⟩ false).1 :=
  notifier_isolation ["A"] 20 ⟨some "http://wh", some "k"⟩ "2026-01-01"
    (some "0") ⟨"CA1", "+15550001", "+15550002", some "busy"⟩ true false
    (by decide) (by decide)

/-- C8: when the external notification endpoint (`WEBHOOK_URL`) is not
configured, `notifyWebhookAllNumbersFailed` returns at its guard: no
outbound request is issued and no error is raised, for either downstream
behaviour. -/
theorem notify_not_configured (numbers : List String) (wh : WebhookConfig)
    (ts : String) (body : CallData) (ok : Bool)
    (h : wh.url = none) :
    notifyWebhookAllNumbersFailed numbers wh ts body ok = NotifyOutcome.skipped := by
  simp [notifyWebhookAllNumbersFailed, jsTruthy, h]

/-- Witness for C8: with `WEBHOOK_URL` unset, the notifier is a no-op. -/
theorem notify_not_configured_witness :
    notifyWebhookAllNumbersFailed ["A"] ⟨none, some "k"⟩ "2026-01-01"
        ⟨"CA1", "+15550001", "+15550002", some "busy"⟩ false
      = NotifyOutcome.skipped :=
  notify_not_configured ["A"] ⟨none, some "k"⟩ "2026-01-01"
    ⟨"CA1", "+15550001", "+15550002", some "busy"⟩ false rfl

/-- C9: every dispatched notification payload is exactly the record built
from the last outcome event's metadata and the process configuration: the
constant event name, the timestamp, the call identifier, the originating
and destination numbers, the whole candidate list as `attemptedNumbers`,
the candidate count as `totalAttempts`, and the final dial outcome. -/
theorem notify_payload_fields (numbers : List String) (wh : WebhookConfig)
    (ts : String) (body : CallData) (ok : Bool) (req : NotifyRequest)
    (h : (notifyWebhookAllNumbersFailed numbers wh ts body ok).request?
          = some req) :
    req.payload
      = { event := "all_numbers_unavailable", timestamp := ts,
          callSid := body.CallSid, From := body.From, To := body.To,
          attemptedNumbers := numbers, totalAttempts := numbers.length,
          dialStatus := body.DialCallStatus } := by
  simp only [notifyWebhookAllNumbersFailed] at h
  by_cases hcfg : ¬ jsTruthy wh.url = true ∨ ¬ jsTruthy wh.apiKey = true
  · rw [if_pos hcfg] at h
    simp [NotifyOutcome.request?] at h
  · rw [if_neg hcfg] at h
    cases ok <;> simp [NotifyOutcome.request?] at h <;> rw [← h]

/-- Witness for C9: a concrete exhaustion dispatch carries exactly the
expected payload fields. -/
theorem notify_payload_fields_witness :
    (NotifyRequest.mk "http://wh" "k"
        ⟨"all_numbers_unavailable", "2026-01-01", "CA1", "+15550001",
          "+15550002", ["A", "B"], 2, some "busy"⟩).payload
      = { event := "all_numbers_unavailable", timestamp := "2026-01-01",
          callSid := "CA1", From := "+15550001", To := "+15550002",
          attemptedNumbers := ["A", "B"], totalAttempts := 2,
          dialStatus := some "busy" } :=
  notify_payload_fields ["A", "B"] ⟨some "http://wh", some "k"⟩ "2026-01-01"
    ⟨"CA1", "+15550001", "+15550002", some "busy"⟩ true
    (NotifyRequest.mk "http://wh" "k"
      ⟨"all_numbers_unavailable", "2026-01-01", "CA1", "+15550001",
        "+15550002", ["A", "B"], 2, some "busy"⟩)
    (by decide)
